import Mathlib

/-!
Verification of the TensorForge Build Assessment Engine.

This file shallowly embeds the assessment core of the TensorForge backend
(`backend/core/engine/simulation.py`, `backend/core/education/hints.py`,
`backend/core/education/progress.py`, `backend/core/levels/manager.py`,
`backend/core/components/registry.py`, and the data model of
`backend/models/game_models.py`) and proves or refutes the frozen claims
about it.

Modelling conventions:
* Python floats are modelled as rationals (`ℚ`); all the constants involved
  are short decimals, so the arithmetic of every claim is exact.
* Python ints are `ℤ` (or `ℕ` where the source value is a length/index).
* Tensors are one-dimensional numeric arrays, `List ℚ`; every tensor the
  engine itself creates is one-dimensional.
* Python dicts that are used as insertion-ordered maps are association
  lists with an insert-or-overwrite operation mirroring dict assignment.
* Python sets of strings are insertion-ordered duplicate-free lists; only
  membership and size are observed by the code, so the iteration order
  abstraction is harmless.
* Randomness (fresh `nn.Linear` weights, dropout masks, `random.choice`)
  is modelled by oracle parameters that theorems quantify over.
* Exceptions are `Except String`; the carried string is the Python
  exception text.
-/

/-! ## String utilities mirroring the Python primitives used by the engine -/

/-- ASCII lowercase of one character, as `str.lower` acts on the
engine's identifiers (which are all ASCII). -/
def charLower (c : Char) : Char :=
  if 'A' ≤ c && c ≤ 'Z' then Char.ofNat (c.toNat + 32) else c

/-- ASCII uppercase of one character. -/
def charUpper (c : Char) : Char :=
  if 'a' ≤ c && c ≤ 'z' then Char.ofNat (c.toNat - 32) else c

/-- Python `s.lower()` (ASCII fragment). -/
def pyLower (s : String) : String := String.mk (s.data.map charLower)

/-- Python `needle in hay` substring test. -/
def strContains (hay needle : String) : Bool :=
  hay.data.tails.any (fun t => needle.data.isPrefixOf t)

/-- Helper for `pyTitle`: the Boolean is whether the previous character was
alphabetic. -/
def pyTitleAux : Bool → List Char → List Char
  | _, [] => []
  | prevAlpha, c :: rest =>
    (if c.isAlpha then (if prevAlpha then charLower c else charUpper c) else c)
      :: pyTitleAux c.isAlpha rest

/-- Python `s.title()` (ASCII fragment): the first letter of each run of
letters is uppercased, the rest lowercased. -/
def pyTitle (s : String) : String := String.mk (pyTitleAux false s.data)

/-- Decimal digit characters of `n`, most significant first; the first
argument is structural fuel (any bound above the number of `/10` steps). -/
def decDigitsAux : ℕ → ℕ → List Char
  | 0, _ => []
  | f + 1, n =>
    if n < 10 then [Char.ofNat (48 + n)]
    else decDigitsAux f (n / 10) ++ [Char.ofNat (48 + n % 10)]

/-- Decimal digit characters of `n`, most significant first. -/
def decDigits (n : ℕ) : List Char := decDigitsAux (n + 1) n

/-- Python `str(n)` for a natural number. -/
def decString (n : ℕ) : String := String.mk (decDigits n)

/-- Numeric value read back from a digit list (used to prove `decDigits`
injective). -/
def decVal (l : List Char) : ℕ := l.foldl (fun a c => 10 * a + (c.toNat - 48)) 0

theorem digit_toNat (d : ℕ) (h : d < 10) : (Char.ofNat (48 + d)).toNat = 48 + d := by
  interval_cases d <;> decide

theorem decVal_append (l : List Char) (c : Char) :
    decVal (l ++ [c]) = 10 * decVal l + (c.toNat - 48) := by
  simp [decVal, List.foldl_append]

theorem decVal_decDigitsAux (fuel n : ℕ) (h : n < fuel) :
    decVal (decDigitsAux fuel n) = n := by
  induction fuel generalizing n with
  | zero => omega
  | succ m ih =>
    rw [decDigitsAux]
    split
    · simp [decVal, digit_toNat n (by omega)]
    · have hd : n / 10 < n := Nat.div_lt_self (by omega) (by omega)
      rw [decVal_append, ih (n / 10) (by omega),
        digit_toNat (n % 10) (Nat.mod_lt _ (by omega))]
      omega

theorem decVal_decDigits (n : ℕ) : decVal (decDigits n) = n :=
  decVal_decDigitsAux (n + 1) n (by omega)

theorem decDigits_inj : Function.Injective decDigits := by
  intro a b h
  have ha := decVal_decDigits a
  rw [h, decVal_decDigits] at ha
  omega

/-- The synthetic node id `f"node_{i}"` used by the simulation engine. -/
def nodeKey (i : ℕ) : String := String.mk ('n' :: 'o' :: 'd' :: 'e' :: '_' :: decDigits i)

theorem nodeKey_inj : Function.Injective nodeKey := by
  intro a b h
  have h2 := congrArg String.data h
  simp only [nodeKey, List.cons.injEq, true_and] at h2
  exact decDigits_inj h2

theorem nodeKey_ne_input (i : ℕ) : nodeKey i ≠ "input" := by
  intro h
  have h2 : 'n' :: 'o' :: 'd' :: 'e' :: '_' :: decDigits i = ['i', 'n', 'p', 'u', 't'] :=
    congrArg String.data h
  injection h2 with h3
  exact absurd h3 (by decide)

/-- Python `min` on two floats (for equal arguments the first is returned,
which coincides with either). -/
def pyMin (a b : ℚ) : ℚ := if a ≤ b then a else b

/-- Round to the nearest integer, ties to even — the rounding of Python
`format`. Only the shape of messages depends on it, never a claim. -/
def roundHalfEven (q : ℚ) : ℤ :=
  let f := ⌊q⌋
  if q - f < 1 / 2 then f
  else if q - f > 1 / 2 then f + 1
  else if f % 2 = 0 then f else f + 1

/-- Python `f"{q:.1%}"`: the value as a percentage with one decimal place
(non-negative values; scores are non-negative wherever this is used). -/
def formatPercent1 (q : ℚ) : String :=
  let r := (roundHalfEven (q * 1000)).toNat
  decString (r / 10) ++ "." ++ decString (r % 10) ++ "%"

/-! ## Data model (`backend/models/game_models.py`) -/

/-- The `MasteryLevel` enumeration. -/
inductive MasteryLevel where
  | novice
  | learning
  | proficient
  | expert
  deriving DecidableEq, Repr

/-- A value stored in `PlayerProgress.concept_mastery`. The field is
annotated `Dict[str, MasteryLevel]`, and `ConceptTracker` writes
`MasteryLevel` members — but `LevelsManager.mark_level_complete` writes raw
strings into the same dict, so the dynamic type of a stored value is either. -/
inductive MasteryStored where
  | enum : MasteryLevel → MasteryStored
  | str : String → MasteryStored
  deriving DecidableEq, Repr

/-- Parameter mapping of a component reference (values restricted to the
numeric parameters the registry implementations read). -/
abbrev Params := List (String × ℚ)

/-- One entry of `ComponentBuild.components`: a loose mapping with optional
`id`, `name` and `type` keys, as the engine accesses it via `.get`. -/
structure CompRef where
  id : Option String
  name : Option String
  type : Option String
  parameters : Params
  deriving DecidableEq, Repr

/-- Python `comp.get("id", comp.get("name", ""))` — the accessor used by
`validate_build` and `_evaluate_level_2`. -/
def getId (c : CompRef) : String := c.id.getD (c.name.getD "")

/-- Python `comp.get("id", "")` — the accessor used by
`_evaluate_mini_boss_1` (no `name` fallback). -/
def getIdOnly (c : CompRef) : String := c.id.getD ""

/-- Python `comp.get("type", "")`. -/
def getType (c : CompRef) : String := c.type.getD ""

/-- Python `comp.get("id", comp.get("name", f"component_{i}"))` — the
accessor used when `simulate_build` constructs the computation graph. -/
def compIdAt (i : ℕ) (c : CompRef) : String :=
  c.id.getD (c.name.getD ("component_" ++ decString i))

/-- The `ComponentBuild` dataclass; `connections` and `metadata` are never
read by the assessment core and are omitted. -/
structure ComponentBuild where
  components : List CompRef
  deriving DecidableEq, Repr

/-- The `ValidationIssue` dataclass. -/
structure ValidationIssue where
  type : String
  component_id : Option String
  message : String
  severity : String
  hint : Option String
  deriving DecidableEq, Repr

/-- The `ValidationResult` dataclass. -/
structure ValidationResult where
  is_valid : Bool
  issues : List ValidationIssue
  suggestions : List String
  deriving DecidableEq, Repr

/-- A one-dimensional numeric array (`torch.Tensor` as the engine uses it). -/
abbrev Tensor := List ℚ

/-- One value of the free-form `visual_data` payload. -/
inductive VisualVal where
  | num : ℚ → VisualVal
  | dict : List (String × String) → VisualVal
  deriving DecidableEq, Repr

/-- The free-form `visual_data` dict. -/
abbrev Visual := List (String × VisualVal)

/-- The `SimulationResult` dataclass (`concept_progress` is never written by
the core and is omitted). -/
structure SimulationResult where
  success : Bool
  score : ℚ
  message : String
  visual_data : Option Visual
  validation_result : Option ValidationResult
  educational_feedback : List String
  deriving DecidableEq, Repr

/-- The `Hint` dataclass (`prerequisites` is never set and omitted). -/
structure Hint where
  content : String
  type : String
  difficulty : ℤ
  visual_highlight : Option String
  deriving DecidableEq, Repr

/-- The `HintAnalysis` dataclass. -/
structure HintAnalysis where
  missing_components : List String
  incorrect_connections : List String
  conceptual_gaps : List String
  attempt_count : ℤ
  time_spent : ℤ
  previous_hints_used : List String
  deriving DecidableEq, Repr

/-- A level-completion record written by `mark_level_complete`. -/
structure LevelRecord where
  completed : Bool
  score : ℚ
  time_taken : ℤ
  attempts : ℤ
  timestamp : ℤ
  deriving DecidableEq, Repr

/-- The `PlayerProgress` dataclass (fields the assessment core reads or
writes). -/
structure PlayerProgress where
  player_id : String
  completed_levels : List (ℤ × LevelRecord)
  current_level : ℤ
  concept_mastery : List (String × MasteryStored)
  deriving DecidableEq, Repr

/-- Insert-or-overwrite on an association list: Python dict assignment
`d[k] = v` (an existing key keeps its position, a new key is appended). -/
def dictInsert {κ α : Type} [BEq κ] (d : List (κ × α)) (k : κ) (v : α) :
    List (κ × α) :=
  if d.any (fun p => p.1 == k) then
    d.map (fun p => if p.1 == k then (k, v) else p)
  else d ++ [(k, v)]

/-- Python `d.get(k)` on an association list. -/
def dictGet {κ α : Type} [BEq κ] (d : List (κ × α)) (k : κ) : Option α :=
  (d.find? (fun p => p.1 == k)).map (fun p => p.2)

/-- Python set insertion on an insertion-ordered duplicate-free list. -/
def addToSet (s : List String) (x : String) : List String :=
  if s.contains x then s else s ++ [x]

/-! ## Component registry (`backend/core/components/registry.py`)

The six core components and their numeric implementations. A component
implementation is called as `implementation(current_data, **params)`; it
either returns a tensor or raises. -/

/-- A component implementation: parameter mapping and input tensor to
result or error. -/
abbrev Impl := Params → Tensor → Except String Tensor

/-- The random state of the numeric library: `nn.Linear` weight and bias
samples and the dropout mask. The engine never inspects the produced
values, so theorems quantify over an arbitrary fixed sample. -/
structure NumericLib where
  w : ℕ → ℕ → ℚ
  b : ℕ → ℚ
  drop : ℕ → Bool

/-- Forward pass of `nn.Linear` with sampled weights `w`, bias `b` and
`outSz` output features on a one-dimensional input. -/
def linearForward (w : ℕ → ℕ → ℚ) (b : ℕ → ℚ) (outSz : ℕ) (x : Tensor) : Tensor :=
  (List.range outSz).map (fun j =>
    b j + (((List.range x.length).map (fun k => w j k * x.getD k 0)).sum))

/-- `_neural_layer_impl`: a fresh `nn.Linear(input_size, output_size)`
applied to the input; `input_size` is the input's length, `output_size`
the `output_size` parameter or `max(2, input_size // 2)`. On a
one-dimensional input this never raises. -/
def neural_layer_impl (lib : NumericLib) : Impl := fun params x =>
  let input_size := x.length
  let output_size := match dictGet params "output_size" with
    | some q => q.num.toNat
    | none => max 2 (input_size / 2)
  .ok (linearForward lib.w lib.b output_size x)

/-- `_relu_activation_impl`: `torch.relu`. -/
def relu_activation_impl : Impl := fun _ x => .ok (x.map (fun v => max 0 v))

/-- `_tensor_add_impl(x, y)` takes two positional tensors, but the graph
executor calls every implementation with a single positional tensor, so the
call raises `TypeError` before the body runs (the parameter mapping holds
only numeric values, never a second tensor). -/
def tensor_add_impl : Impl := fun _ _ =>
  .error "_tensor_add_impl() missing 1 required positional argument: \x27y\x27"

/-- `_tensor_multiply_impl(x, y)`: same arity mismatch as `tensor_add`. -/
def tensor_multiply_impl : Impl := fun _ _ =>
  .error "_tensor_multiply_impl() missing 1 required positional argument: \x27y\x27"

/-- `_dense_layer_impl`: identical shape behaviour to the neural layer. -/
def dense_layer_impl (lib : NumericLib) : Impl := fun params x =>
  let input_size := x.length
  let output_size := match dictGet params "output_size" with
    | some q => q.num.toNat
    | none => max 2 (input_size / 2)
  .ok (linearForward lib.w lib.b output_size x)

/-- `_dropout_impl`: `nn.Dropout(rate)` in training mode — each entry is
zeroed where the sampled mask is set, the rest scaled by `1/(1-rate)`. -/
def dropout_impl (lib : NumericLib) : Impl := fun params x =>
  let rate := (dictGet params "dropout_rate").getD (2 / 10)
  .ok ((x.zip (List.range x.length)).map (fun pv =>
    if lib.drop pv.2 then 0 else pv.1 * (1 / (1 - rate))))

/-- `component_registry.get_implementation`: the six registered core
components; any other id resolves to `None`. -/
def registryImpl (lib : NumericLib) : String → Option Impl := fun cid =>
  if cid = "neural_layer" then some (neural_layer_impl lib)
  else if cid = "activation_relu" then some relu_activation_impl
  else if cid = "tensor_add" then some tensor_add_impl
  else if cid = "tensor_multiply" then some tensor_multiply_impl
  else if cid = "dense_layer" then some (dense_layer_impl lib)
  else if cid = "dropout" then some (dropout_impl lib)
  else none

/-! ## Computation graph (`ComputationGraph` in `simulation.py`) -/

/-- The `ComponentNode` dataclass (the `inputs`/`outputs` fields are never
used by the linear pipeline). -/
structure ComponentNode where
  id : String
  component_id : String
  parameters : Params
  deriving DecidableEq, Repr

/-- The `ComputationGraph` state after building: `add_component` appends a
node and its id to `nodes` and `execution_order` in lockstep. -/
structure ComputationGraph where
  nodes : List ComponentNode
  execution_order : List String
  deriving Repr

/-- `_get_node`: first node whose id matches. -/
def get_node (nodes : List ComponentNode) (node_id : String) : Option ComponentNode :=
  nodes.find? (fun n => n.id == node_id)

/-- The loop body of `ComputationGraph.execute`: walk `execution_order`,
look each node up, resolve its implementation (a missing implementation
raises `ValueError`, uncaught), run it (a raising transformation is wrapped
in `RuntimeError`), and record the output under the node id. -/
def executeLoop (reg : String → Option Impl) (nodes : List ComponentNode) :
    List String → Tensor → List (String × Tensor) →
    Except String (List (String × Tensor))
  | [], _, acc => .ok acc
  | node_id :: rest, current, acc =>
    match get_node nodes node_id with
    | none => executeLoop reg nodes rest current acc
    | some node =>
      match reg node.component_id with
      | none => .error ("No implementation found for component: " ++ node.component_id)
      | some impl =>
        match impl node.parameters current with
        | .error e => .error ("Error executing component " ++ node.component_id ++ ": " ++ e)
        | .ok next => executeLoop reg nodes rest next (dictInsert acc node_id next)

/-- `ComputationGraph.execute`: the trace starts as `{"input": input_data}`
and gains one entry per executed node. -/
def execute (reg : String → Option Impl) (g : ComputationGraph) (input_data : Tensor) :
    Except String (List (String × Tensor)) :=
  executeLoop reg g.nodes g.execution_order input_data [("input", input_data)]

/-- Nodes created by the graph-building loop of `simulate_build`, which for
the component at position `i` adds a node with id `node_{i}` and component
id `comp.get("id", comp.get("name", f"component_{i}"))`. -/
def buildNodes : ℕ → List CompRef → List ComponentNode
  | _, [] => []
  | i, c :: rest => ⟨nodeKey i, compIdAt i c, c.parameters⟩ :: buildNodes (i + 1) rest

/-- The computation graph `simulate_build` constructs from a component
list (after `clear()`); `add_component` keeps `nodes` and
`execution_order` in lockstep, so the order is the node ids. -/
def build_graph (comps : List CompRef) : ComputationGraph :=
  ⟨buildNodes 0 comps, (buildNodes 0 comps).map (fun n => n.id)⟩

/-! ## Structural validator (`validate_build` in `simulation.py`) -/

/-- `_get_required_components`. -/
def get_required_components (level_id : ℤ) : List String :=
  if level_id = 1 then ["neural_layer"]
  else if level_id = 2 then ["neural_layer", "activation"]
  else if level_id = 3 then ["neural_layer", "tensor_add", "tensor_multiply"]
  else if level_id = 4 then ["neural_layer", "activation", "dense_layer"]
  else []

/-- `_validate_component_sequence`: scan the build tracking whether a
layer-class component has been seen; an activation-class component before
any layer yields a `sequence_error` warning. -/
def validate_component_sequence : Bool → List CompRef → List ValidationIssue
  | _, [] => []
  | has_layer, comp :: rest =>
    let comp_type := getType comp
    let comp_id := getId comp
    if strContains (pyLower comp_id) "layer" || comp_type == "layer" then
      validate_component_sequence true rest
    else if strContains (pyLower comp_id) "activation" && !has_layer then
      ⟨"sequence_error", some comp_id, "Activation function should come after a layer",
        "warning", some "Try placing the activation function after a neural layer"⟩
        :: validate_component_sequence has_layer rest
    else validate_component_sequence has_layer rest

/-- `_validate_level_specific_requirements`: level 2 wants at least 3
components, the mini-boss level 4 at least 4, both as warnings. -/
def validate_level_specific (build : ComponentBuild) (level_id : ℤ) : List ValidationIssue :=
  if level_id = 2 then
    if build.components.length < 3 then
      [⟨"insufficient_complexity", none,
        "Need at least 3 components, you have " ++ decString build.components.length,
        "warning", some "Add more components to make your network more sophisticated"⟩]
    else []
  else if level_id = 4 then
    if build.components.length < 4 then
      [⟨"insufficient_complexity", none,
        "Mini-boss level requires at least 4 components for full credit", "warning", none⟩]
    else []
  else []

/-- `validate_build`: empty build short-circuits with a single
`missing_components` error; otherwise required components, component
sequence and level-specific rules are checked, validity is the absence of
error-severity issues, and suggestions collect the hints of non-error
issues. -/
def validate_build (build : ComponentBuild) (level_id : ℤ) : ValidationResult :=
  if build.components.length = 0 then
    ⟨false,
      [⟨"missing_components", none, "No components added to the network", "error",
        some "Try adding some components from the library!"⟩], []⟩
  else
    let component_ids := build.components.map (fun c => pyLower (getId c))
    let missing := (get_required_components level_id).filterMap (fun required =>
      if component_ids.any (fun cid => strContains cid (pyLower required)) then none
      else some ⟨"missing_required_component", some required,
        "Missing required component: " ++ required, "error",
        some ("Try adding a " ++ required ++ " component to your network")⟩)
    let issues := missing ++ validate_component_sequence false build.components
      ++ validate_level_specific build level_id
    ⟨!(issues.any (fun i => i.severity == "error")), issues,
      issues.filterMap (fun i =>
        match i.hint with
        | some h => if h ≠ "" && i.severity ≠ "error" then some h else none
        | none => none)⟩

/-! ## Outcome scorer (`simulate_build` and the `_evaluate_*` functions) -/

/-- `_generate_input_data`: the fixed per-level default input arrays. -/
def generate_input_data (level_id : ℤ) : Tensor :=
  if level_id = 2 then [1, 2, 3, 4]
  else if level_id = 3 then [1 / 2, 3 / 2, 5 / 2]
  else [1, 1 / 2, 4 / 5, 3 / 10]

/-- The component-class set built by `_evaluate_level_2`: each component
contributes the first of neural/dense/activation/dropout whose name occurs
in its lowercased id. -/
def component_types_l2 (comps : List CompRef) : List String :=
  comps.foldl (fun acc comp =>
    let comp_id := pyLower (getId comp)
    if strContains comp_id "neural" then addToSet acc "neural"
    else if strContains comp_id "dense" then addToSet acc "dense"
    else if strContains comp_id "activation" then addToSet acc "activation"
    else if strContains comp_id "dropout" then addToSet acc "dropout"
    else acc) []

/-- Python `dict(iterable)` applied to a sequence of strings, as
`_evaluate_level_2` does with `dict(component_types)`: each element must be
a length-2 sequence (its two characters become a key/value pair), any other
length raises `ValueError`. -/
def dictFromStringSeqAux : ℕ → List (String × String) → List String →
    Except String (List (String × String))
  | _, acc, [] => .ok acc
  | i, acc, s :: rest =>
    match s.data with
    | [a, b] => dictFromStringSeqAux (i + 1) (dictInsert acc (String.mk [a]) (String.mk [b])) rest
    | _ => .error ("dictionary update sequence element #" ++ decString i ++
        " has length " ++ decString s.data.length ++ "; 2 is required")

/-- Python `dict(component_types)` over the class-name list. -/
def dictFromStringSeq (l : List String) : Except String (List (String × String)) :=
  dictFromStringSeqAux 0 [] l

/-- `_evaluate_level_2`: base score 0.6, diversity bonuses, cap 0.95,
success at 0.85; the visualization payload converts the class-name set
with `dict(...)`, which raises whenever the set holds a name whose length
is not 2 — i.e. whenever the set is non-empty. -/
def evaluate_level_2 (build : ComponentBuild) : Except String (Bool × ℚ × String × Visual) :=
  let component_types := component_types_l2 build.components
  let score := pyMin (95 / 100)
    ((6 : ℚ) / 10 + (if component_types.contains "neural" then 15 / 100 else 0)
      + (if component_types.contains "activation" then 1 / 10 else 0)
      + (if component_types.contains "dense" then 1 / 10 else 0)
      + (if 3 ≤ component_types.length then 5 / 100 else 0))
  let success := if (85 : ℚ) / 100 ≤ score then true else false
  let message :=
    if success then
      "Excellent network! Your " ++ decString build.components.length ++
        "-layer network achieved " ++ formatPercent1 score ++ " efficiency."
    else
      "Network needs improvement. Consider adding: " ++
        String.intercalate ", "
          ((if component_types.contains "neural" then [] else ["Neural Layer"]) ++
            (if component_types.contains "activation" then [] else ["Activation Function"])) ++
        ". Current efficiency: " ++ formatPercent1 score
  match dictFromStringSeq (component_types_l2 build.components) with
  | .error e => .error e
  | .ok component_breakdown =>
    .ok (success, score, message,
      [("efficiency", .num score), ("component_breakdown", .dict component_breakdown),
        ("network_depth", .num build.components.length)])

/-- `_evaluate_level_3`: 0.75 with at least three components, else 0.5;
success at 0.75. -/
def evaluate_level_3 (build : ComponentBuild) : Except String (Bool × ℚ × String × Visual) :=
  let score : ℚ := if 3 ≤ build.components.length then 3 / 4 else 1 / 2
  let success := if (3 : ℚ) / 4 ≤ score then true else false
  .ok (success, score,
    if success then "Pattern detection network built successfully!"
    else "Try adding more components for better pattern recognition.",
    [("pattern_score", .num score)])

/-- `_evaluate_mini_boss_1`: base 0.7 with size and advanced-component
bonuses, cap 0.95, success at 0.9. -/
def evaluate_mini_boss_1 (build : ComponentBuild) : Except String (Bool × ℚ × String × Visual) :=
  let has_dropout := build.components.any (fun c => strContains (pyLower (getIdOnly c)) "dropout")
  let has_dense := build.components.any (fun c => strContains (pyLower (getIdOnly c)) "dense")
  let score := pyMin (95 / 100)
    ((7 : ℚ) / 10 + (if 4 ≤ build.components.length then 1 / 10 else 0)
      + (if 5 ≤ build.components.length then 5 / 100 else 0)
      + (if has_dropout then 8 / 100 else 0)
      + (if has_dense then 7 / 100 else 0))
  let success := if (9 : ℚ) / 10 ≤ score then true else false
  .ok (success, score,
    if success then "Mini-boss conquered! Your AI is truly intelligent!"
    else "Good attempt! Score: " ++ formatPercent1 score ++ ". Try adding more advanced components.",
    [("mini_boss_score", .num score)])

/-- `_evaluate_generic`: `min(0.9, 0.6 + n * 0.1)`, success at 0.8. -/
def evaluate_generic (build : ComponentBuild) : Except String (Bool × ℚ × String × Visual) :=
  let score := pyMin (9 / 10) ((6 : ℚ) / 10 + (build.components.length : ℚ) * (1 / 10))
  let success := if (8 : ℚ) / 10 ≤ score then true else false
  .ok (success, score,
    if success then "Network simulation completed successfully!"
    else "Try improving your network architecture.",
    [("generic_score", .num score)])

/-- `_evaluate_results`: an empty trace yields a failed outcome, otherwise
the level-specific scoring function runs. -/
def evaluate_results (results : List (String × Tensor)) (level_id : ℤ)
    (build : ComponentBuild) : Except String (Bool × ℚ × String × Visual) :=
  match results.getLast? with
  | none => .ok (false, 0, "No output generated", [])
  | some _ =>
    if level_id = 2 then evaluate_level_2 build
    else if level_id = 3 then evaluate_level_3 build
    else if level_id = 4 then evaluate_mini_boss_1 build
    else evaluate_generic build

/-- `_generate_educational_feedback`: one line chosen by component count,
plus a level-specific note for levels 2 and 3. -/
def generate_educational_feedback (build : ComponentBuild)
    (_results : List (String × Tensor)) (level_id : ℤ) : List String :=
  (if build.components.length = 1 then
    ["Great start! Single components are the building blocks of AI."]
  else if build.components.length ≤ 3 then
    ["Nice architecture! Multiple components allow for more sophisticated processing."]
  else
    ["Impressive network depth! Deep networks can learn complex patterns."]) ++
  (if level_id = 2 then
    ["Remember: each layer transforms the data, making it easier for the next layer to understand."]
  else if level_id = 3 then
    ["Pattern recognition is at the heart of all AI - your network is learning to find hidden relationships!"]
  else [])

/-- A failed `SimulationResult` as the exception handler of
`simulate_build` constructs it. -/
def failedResult (validation : ValidationResult) (msg : String) : SimulationResult :=
  ⟨false, 0, msg, none, some validation, []⟩

/-- The `try` block of `simulate_build` after the default input has been
resolved: build and execute the computation graph, score the outcome,
attach educational feedback; any exception is converted into a failed
result carrying `"Simulation failed: "` and the exception text. -/
def simulate_exec (reg : String → Option Impl) (build : ComponentBuild)
    (level_id : ℤ) (input : Tensor) : SimulationResult :=
  match execute reg (build_graph build.components) input with
  | .error e => failedResult (validate_build build level_id) ("Simulation failed: " ++ e)
  | .ok results =>
    match evaluate_results results level_id build with
    | .error e => failedResult (validate_build build level_id) ("Simulation failed: " ++ e)
    | .ok out =>
      ⟨out.1, out.2.1, out.2.2.1, some out.2.2.2, some (validate_build build level_id),
        generate_educational_feedback build results level_id⟩

/-- `simulate_build`, parametrized over the component registry `reg` (the
concrete engine uses `registryImpl lib`): validate, short-circuit on an
invalid build with the joined error messages, else resolve the input (the
per-level default when none is supplied) and run the `try` block. -/
def simulate_build_with (reg : String → Option Impl) (build : ComponentBuild)
    (level_id : ℤ) (input_data : Option Tensor) : SimulationResult :=
  if (validate_build build level_id).is_valid = false then
    ⟨false, 0,
      String.intercalate "; "
        ((((validate_build build level_id).issues.filter (fun i => i.severity == "error")).map
          (fun i => i.message))),
      none, some (validate_build build level_id), []⟩
  else
    simulate_exec reg build level_id
      (match input_data with
       | none => generate_input_data level_id
       | some d => d)

/-- `simulate_build` of the engine instance: the registry is the global
component registry with the library's random state `lib`. -/
def simulate_build (lib : NumericLib) (build : ComponentBuild) (level_id : ℤ)
    (input_data : Option Tensor) : SimulationResult :=
  simulate_build_with (registryImpl lib) build level_id input_data

/-! ## Adaptive hint system (`backend/core/education/hints.py`) -/

/-- `_generate_missing_component_hint`: a structure-type hint naming the
missing component, phrased by difficulty, highlighting the component. -/
def generate_missing_component_hint (component_id : String) (difficulty : ℤ) : Hint :=
  let component_name :=
    if component_id = "neural_layer" then "Neural Layer"
    else if component_id = "activation_relu" then "Activation Function"
    else if component_id = "dense_layer" then "Dense Layer"
    else if component_id = "dropout" then "Dropout"
    else if component_id = "tensor_add" then "Tensor Addition"
    else if component_id = "tensor_multiply" then "Tensor Multiplication"
    else pyTitle component_id
  let content :=
    if difficulty ≤ 2 then
      "Your AI might benefit from including a " ++ component_name ++ "."
    else if difficulty ≤ 4 then
      "Try adding a " ++ component_name ++ " component to your network."
    else
      "You need to add a " ++ component_name ++ " component. Look for it in the component library."
  ⟨content, "structure", difficulty, some component_id⟩

/-- `_generate_concept_hint`: a concept-type hint chosen from the hint
catalog, phrasing tier `min(difficulty - 1, len - 1)` (in range because
`generate_hint` clamps difficulty to `[1, 5]`). -/
def generate_concept_hint (concept : String) (_level_id : ℤ) (difficulty : ℤ) : Hint :=
  let hints_list :=
    if concept = "basic_assembly" then
      ["Try dragging a component from the library to get started!",
       "Start by adding some components to build your AI network.",
       "Click and drag components from the left panel into the center area."]
    else if concept = "network_depth" then
      ["Consider adding more components to make your network more sophisticated.",
       "Deeper networks with multiple components often perform better.",
       "Try stacking more layers to give your AI more processing power."]
    else if concept = "neural_networks" then
      ["Every AI needs a brain! Try adding a Neural Layer.",
       "Neural networks need neurons - add a Neural Layer component.",
       "Start with a Neural Layer as the foundation of your AI."]
    else if concept = "activation" then
      ["Your network needs non-linearity - try adding an Activation Function.",
       "Add an Activation Function to help your AI learn complex patterns.",
       "Activation Functions are essential - they help neurons make decisions."]
    else
      ["Consider the concept of " ++ concept ++ " for this level."]
  let hint_index := (min (difficulty - 1) ((hints_list.length : ℤ) - 1)).toNat
  ⟨hints_list.getD hint_index "", "concept", difficulty, none⟩

/-- `_generate_connection_hint`: a structure-type hint about component
order, phrased by difficulty. -/
def generate_connection_hint (_connection_issue : String) (difficulty : ℤ) : Hint :=
  let content :=
    if difficulty ≤ 2 then
      "Check the order of your components - some work better in specific sequences."
    else if difficulty ≤ 4 then
      "Try rearranging your components. Activation functions usually come after layers."
    else
      "Components have an optimal order: Layer → Activation → Layer → etc."
  ⟨content, "structure", difficulty, none⟩

/-- `_generate_encouragement_hint`: `random.choice` over five fixed
encouragements; the random draw is modelled by the oracle `pick`
(reduced modulo the list length, so every choice is reachable). -/
def generate_encouragement_hint (pick : ℕ) (_level_id : ℤ) (difficulty : ℤ) : Hint :=
  let encouragements :=
    ["You\x27re on the right track! Try fine-tuning your approach.",
     "Great progress! Your AI architecture looks promising.",
     "Almost there! Consider if any components could work better together.",
     "Nice work! Your network structure shows good understanding.",
     "Excellent attempt! Small adjustments might give you that extra boost."]
  ⟨encouragements.getD (pick % encouragements.length) "", "encouragement", difficulty, none⟩

/-- `generate_hint`: difficulty `min(5, max(1, hint_level + attempts - 1))`,
then the first applicable branch of missing components, conceptual gaps,
incorrect connections, encouragement. `pick` is the randomness oracle
consumed only by the encouragement branch. -/
def generate_hint (pick : ℕ) (analysis : HintAnalysis) (level_id : ℤ)
    (hint_level : ℤ) : Option Hint :=
  let difficulty := min 5 (max 1 (hint_level + (analysis.attempt_count - 1)))
  match analysis.missing_components with
  | m :: _ => some (generate_missing_component_hint m difficulty)
  | [] =>
    match analysis.conceptual_gaps with
    | g :: _ => some (generate_concept_hint g level_id difficulty)
    | [] =>
      match analysis.incorrect_connections with
      | c :: _ => some (generate_connection_hint c difficulty)
      | [] => some (generate_encouragement_hint pick level_id difficulty)

/-- `should_offer_assistance`: three or more attempts, or more than 300
time-units spent, or a last score under 0.3 with at least two attempts. -/
def should_offer_assistance (attempt_count : ℤ) (time_spent : ℤ) (last_score : ℚ) : Bool :=
  if 3 ≤ attempt_count then true
  else if 300 < time_spent then true
  else if last_score < 3 / 10 ∧ 2 ≤ attempt_count then true
  else false

/-! ## Levels manager (`backend/core/levels/manager.py`) -/

/-- `get_level_concepts`: the concepts of the four initialized levels; an
unknown level has none. -/
def get_level_concepts (level_id : ℤ) : List String :=
  if level_id = 1 then ["neural_networks", "training", "classification"]
  else if level_id = 2 then ["deep_networks", "layer_stacking", "tensor_operations"]
  else if level_id = 3 then ["linear_models", "weights", "bias", "pattern_recognition"]
  else if level_id = 4 then ["integration", "multi_task_learning", "ai_systems"]
  else []

/-- `mark_level_complete`: record the completion (the timestamp is
`time.time()`, passed here as a parameter), then write a mastery tier for
every concept of the level — unconditionally, and as a raw string; the
tier is computed from `score * (1.0 / attempts)` with thresholds 0.9 and
0.7. `attempts = 0` raises `ZeroDivisionError`. -/
def mark_level_complete (level_id : ℤ) (p : PlayerProgress) (score : ℚ)
    (time_taken : ℤ) (attempts : ℤ) (timestamp : ℤ) : Except String PlayerProgress :=
  if attempts = 0 then .error "ZeroDivisionError: float division by zero"
  else
    let level_record : LevelRecord := ⟨true, score, time_taken, attempts, timestamp⟩
    let p1 := { p with completed_levels := dictInsert p.completed_levels level_id level_record }
    let mastery_score := score * (1 / (attempts : ℚ))
    let tier : MasteryStored := .str
      (if (9 : ℚ) / 10 ≤ mastery_score then "proficient"
       else if (7 : ℚ) / 10 ≤ mastery_score then "learning"
       else "novice")
    .ok ((get_level_concepts level_id).foldl (fun acc concept =>
      { acc with concept_mastery := dictInsert acc.concept_mastery concept tier }) p1)

/-! ## Concept mastery tracker (`backend/core/education/progress.py`) -/

/-- `_mastery_level_value`: the tier ordinal via a dict keyed by
`MasteryLevel` members with default 0 — a raw string stored by
`mark_level_complete` is not a key, so it maps to 0. -/
def mastery_level_value : MasteryStored → ℕ
  | .enum .novice => 0
  | .enum .learning => 1
  | .enum .proficient => 2
  | .enum .expert => 3
  | .str _ => 0

/-- `assess_concept_mastery`: the stored value, or `NOVICE` when the
concept is untracked. -/
def assess_concept_mastery (p : PlayerProgress) (concept : String) : MasteryStored :=
  (dictGet p.concept_mastery concept).getD (.enum .novice)

/-- The tier computed by `update_concept_mastery` from the current stored
value and the effective mastery score. The `>= 0.95` branch also tests
`current_mastery.value != MasteryLevel.EXPERT.value`, which raises
`AttributeError` when the stored value is a raw string; with the test
false the chain falls through to the lower thresholds. -/
def newMasteryOf (current_mastery : MasteryStored) (mastery_score : ℚ) :
    Except String MasteryLevel :=
  if (95 : ℚ) / 100 ≤ mastery_score then
    match current_mastery with
    | .str _ => .error "AttributeError: \x27str\x27 object has no attribute \x27value\x27"
    | .enum cur =>
      if cur ≠ .expert then .ok .expert
      else if (85 : ℚ) / 100 ≤ mastery_score then .ok .proficient
      else if (7 : ℚ) / 10 ≤ mastery_score then .ok .learning
      else .ok .novice
  else if (85 : ℚ) / 100 ≤ mastery_score then .ok .proficient
  else if (7 : ℚ) / 10 ≤ mastery_score then .ok .learning
  else .ok .novice

/-- `update_concept_mastery`: effective score `performance_score` for at
most one attempt, else `performance_score * (1.0 / max(1, attempts - 1))`;
the computed tier is stored only when its ordinal strictly exceeds the
current one. -/
def update_concept_mastery (p : PlayerProgress) (concept : String)
    (performance_score : ℚ) (attempts : ℤ) : Except String PlayerProgress :=
  match newMasteryOf (assess_concept_mastery p concept)
      (if 1 < attempts then performance_score * (1 / ((max 1 (attempts - 1) : ℤ) : ℚ))
       else performance_score) with
  | .error e => .error e
  | .ok new_mastery =>
    if mastery_level_value (.enum new_mastery) >
        mastery_level_value (assess_concept_mastery p concept) then
      .ok { p with concept_mastery := dictInsert p.concept_mastery concept (.enum new_mastery) }
    else .ok p

/-! ## Claim-side definitions

These state claim properties in the spec's own words, to be related to the
embedded code by the claim theorems. -/

/-- Spec-side effective mastery score: `performanceScore` when
`attempts ≤ 1`, else `performanceScore / (attempts - 1)`. -/
def specEffectiveScore (performance_score : ℚ) (attempts : ℤ) : ℚ :=
  if attempts ≤ 1 then performance_score
  else performance_score / ((attempts : ℚ) - 1)

/-- Spec-side tier thresholds: `≥ 0.95` expert, `≥ 0.85` proficient,
`≥ 0.7` learning, else novice. -/
def specMasteryTier (effective_score : ℚ) : MasteryLevel :=
  if (95 : ℚ) / 100 ≤ effective_score then .expert
  else if (85 : ℚ) / 100 ≤ effective_score then .proficient
  else if (7 : ℚ) / 10 ≤ effective_score then .learning
  else .novice

/-- The ordinal of a mastery tier in the novice < learning < proficient <
expert ordering. -/
def tierOrdinal : MasteryLevel → ℕ
  | .novice => 0
  | .learning => 1
  | .proficient => 2
  | .expert => 3

/-- The tier a stored mastery value denotes, reading the raw tier-name
strings written by `mark_level_complete` by their names (the claim-side
view of the heterogeneous stored values). -/
def storedTier : MasteryStored → ℕ
  | .enum l => tierOrdinal l
  | .str s =>
    if s = "learning" then 1
    else if s = "proficient" then 2
    else if s = "expert" then 3
    else 0

/-- Spec-side description of the executor trace: processing the components
in submission order, each fed the previous output, the entry for the
component at position `i` keyed `node_{i}`; resolution and execution
failures carry the executor's error messages. -/
def specChainTrace (reg : String → Option Impl) : ℕ → List CompRef → Tensor →
    Except String (List (String × Tensor))
  | _, [], _ => .ok []
  | i, c :: rest, current =>
    match reg (compIdAt i c) with
    | none => .error ("No implementation found for component: " ++ compIdAt i c)
    | some impl =>
      match impl c.parameters current with
      | .error e => .error ("Error executing component " ++ compIdAt i c ++ ": " ++ e)
      | .ok next =>
        match specChainTrace reg (i + 1) rest next with
        | .error e => .error e
        | .ok t => .ok ((nodeKey i, next) :: t)

/-! ## Association-list lemmas -/

theorem dictGet_dictInsert {κ α : Type} [BEq κ] [LawfulBEq κ]
    (d : List (κ × α)) (k : κ) (v : α) :
    dictGet (dictInsert d k v) k = some v := by
  unfold dictInsert dictGet
  split
  · rename_i hany
    induction d with
    | nil => simp at hany
    | cons hd tl ih =>
      by_cases hk : hd.1 == k
      · simp [List.find?_cons, hk]
      · simp only [List.any_cons, hk, Bool.false_or] at hany
        simp only [List.map_cons, hk, if_neg (by simp [hk] : ¬(hd.1 == k) = true)]
        rw [List.find?_cons_of_neg _ (by simp_all)]
        exact ih hany
  · rename_i hany
    have hnone : d.find? (fun p => p.1 == k) = none := by
      rw [List.find?_eq_none]
      intro x hx
      simp only [List.any_eq_true, not_exists, not_and] at hany
      intro hc
      exact absurd hc (by simpa using hany x hx)
    rw [List.find?_append, hnone]
    simp

theorem find?_map_overwrite_ne {κ α : Type} [BEq κ] [LawfulBEq κ]
    (d : List (κ × α)) (k k2 : κ) (v : α) (h : k2 ≠ k) :
    List.find? (fun p => p.1 == k2) (d.map (fun p => if p.1 == k then (k, v) else p)) =
      List.find? (fun p => p.1 == k2) d := by
  induction d with
  | nil => rfl
  | cons hd tl ih =>
    by_cases hk : hd.1 == k
    · have h1 : hd.1 = k := by simpa using hk
      have hne : ((k, v).1 == k2) = false := by simpa using Ne.symm h
      have hne2 : (hd.1 == k2) = false := by rw [h1]; simpa using Ne.symm h
      simp only [List.map_cons, if_pos hk, List.find?, hne, hne2]
      exact ih
    · simp only [List.map_cons, if_neg hk, List.find?]
      by_cases h2 : hd.1 == k2
      · simp only [h2]
      · simp only [Bool.not_eq_true] at h2
        simp only [h2]
        exact ih

theorem dictGet_dictInsert_ne {κ α : Type} [BEq κ] [LawfulBEq κ]
    (d : List (κ × α)) (k k2 : κ) (v : α) (h : k2 ≠ k) :
    dictGet (dictInsert d k v) k2 = dictGet d k2 := by
  unfold dictInsert dictGet
  split
  · rw [find?_map_overwrite_ne d k k2 v h]
  · rw [List.find?_append]
    rcases hf : d.find? (fun p => p.1 == k2) with _ | p
    · simp [Ne.symm h]
    · rw [hf]
      rfl

/-! ## Claim C9 -/

/-- C9: `should_offer_assistance(attemptCount, timeSpent, lastScore)` is
true exactly when attemptCount ≥ 3, or timeSpent exceeds 300, or
lastScore < 0.3 with attemptCount ≥ 2. -/
theorem c9_should_offer_assistance_iff (attempt_count time_spent : ℤ) (last_score : ℚ) :
    should_offer_assistance attempt_count time_spent last_score = true ↔
      (3 ≤ attempt_count ∨ 300 < time_spent ∨
        (last_score < 3 / 10 ∧ 2 ≤ attempt_count)) := by
  unfold should_offer_assistance
  split_ifs with h1 h2 h3 <;> simp_all

/-! ## Claim C10 -/

/-- C10: `generate_hint` returns a hint for every analysis, level id, hint
level and random draw — when no missing component, conceptual gap or
connection issue exists, the encouragement fallback still produces one, so
the optional result is never empty. -/
theorem c10_generate_hint_total (pick : ℕ) (analysis : HintAnalysis)
    (level_id hint_level : ℤ) :
    (generate_hint pick analysis level_id hint_level).isSome = true := by
  unfold generate_hint
  rcases analysis.missing_components with _ | _
  · rcases analysis.conceptual_gaps with _ | _
    · rcases analysis.incorrect_connections with _ | _ <;> rfl
    · rfl
  · rfl

/-! ## Claim C6 -/

/-- C6: on an analysis with a non-empty missing-components list (and in
particular also a non-empty conceptual-gaps list), `generate_hint` returns
exactly the hint of the missing-components branch built from the first
missing component — never a conceptual-gap, connection or encouragement
hint. -/
theorem c6_hint_priority (pick : ℕ) (analysis : HintAnalysis)
    (level_id hint_level : ℤ)
    (hm : analysis.missing_components ≠ [])
    (_hg : analysis.conceptual_gaps ≠ []) :
    generate_hint pick analysis level_id hint_level =
      some (generate_missing_component_hint analysis.missing_components.headI
        (min 5 (max 1 (hint_level + (analysis.attempt_count - 1))))) := by
  unfold generate_hint
  rcases h : analysis.missing_components with _ | ⟨m, ms⟩
  · exact absurd h hm
  · simp [h]

/-- Witness for C6 at a concrete analysis with both lists non-empty. -/
theorem c6_hint_priority_witness :
    (HintAnalysis.mk ["neural_layer"] [] ["activation"] 1 0 []).missing_components ≠ [] ∧
    (HintAnalysis.mk ["neural_layer"] [] ["activation"] 1 0 []).conceptual_gaps ≠ [] ∧
    generate_hint 0 (HintAnalysis.mk ["neural_layer"] [] ["activation"] 1 0 []) 2 1 =
      some (generate_missing_component_hint "neural_layer" 1) := by
  refine ⟨by decide, by decide, ?_⟩
  have h := c6_hint_priority 0 (HintAnalysis.mk ["neural_layer"] [] ["activation"] 1 0 [])
    2 1 (by decide) (by decide)
  have h2 : min 5 (max 1 ((1 : ℤ) + (1 - 1))) = 1 := by decide
  simpa [h2] using h

/-! ## Claim C4 -/

/-- C4: validating an empty build at any level yields exactly one
`missing_components` error issue (returned immediately, with no
suggestions), and simulating the empty build fails with score 0. -/
theorem c4_empty_build (reg : String → Option Impl) (level_id : ℤ)
    (input_data : Option Tensor) :
    validate_build ⟨[]⟩ level_id =
      ⟨false,
        [⟨"missing_components", none, "No components added to the network", "error",
          some "Try adding some components from the library!"⟩], []⟩ ∧
    (simulate_build_with reg ⟨[]⟩ level_id input_data).success = false ∧
    (simulate_build_with reg ⟨[]⟩ level_id input_data).score = 0 := by
  refine ⟨rfl, ?_, ?_⟩ <;> simp [simulate_build_with, validate_build]

/-! ## Claim C3 -/

/-- C3: when validation reports invalid, `simulate_build` returns
immediately: success false, score 0, the message is the `"; "`-joined
error-issue messages, and the result does not depend on the component
registry at all — the executor is never invoked (the registry `reg` is
universally quantified and absent from the right-hand side). -/
theorem c3_invalid_gating (reg : String → Option Impl) (build : ComponentBuild)
    (level_id : ℤ) (input_data : Option Tensor)
    (h : (validate_build build level_id).is_valid = false) :
    simulate_build_with reg build level_id input_data =
      ⟨false, 0,
        String.intercalate "; "
          (((validate_build build level_id).issues.filter
            (fun i => i.severity == "error")).map (fun i => i.message)),
        none, some (validate_build build level_id), []⟩ := by
  unfold simulate_build_with
  simp [h]

/-- Witness for C3 at a concrete invalid build (the empty build). -/
theorem c3_invalid_gating_witness :
    (validate_build ⟨[]⟩ 1).is_valid = false ∧
    (simulate_build_with (fun _ => none) ⟨[]⟩ 1 none).score = 0 ∧
    (simulate_build_with (fun _ => none) ⟨[]⟩ 1 none).message =
      "No components added to the network" := by
  have h : (validate_build ⟨[]⟩ 1).is_valid = false := by decide
  refine ⟨h, ?_, ?_⟩ <;> (rw [c3_invalid_gating (fun _ => none) ⟨[]⟩ 1 none h]; try decide)

/-! ## Claim C2 -/

theorem pyMin_le_left (a b : ℚ) : pyMin a b ≤ a := by
  unfold pyMin
  split <;> linarith

theorem pyMin_nonneg (a b : ℚ) (ha : 0 ≤ a) (hb : 0 ≤ b) : 0 ≤ pyMin a b := by
  unfold pyMin
  split <;> assumption

theorem evaluate_level_2_bounds (build : ComponentBuild) (out : Bool × ℚ × String × Visual)
    (h : evaluate_level_2 build = .ok out) : 0 ≤ out.2.1 ∧ out.2.1 ≤ 95 / 100 := by
  unfold evaluate_level_2 at h
  rcases hd : dictFromStringSeq (component_types_l2 build.components) with _ | b
  · rw [hd] at h
    simp at h
  · rw [hd] at h
    simp only [Except.ok.injEq] at h
    subst h
    constructor
    · exact pyMin_nonneg _ _ (by norm_num) (by split_ifs <;> norm_num)
    · exact pyMin_le_left _ _

theorem evaluate_level_3_bounds (build : ComponentBuild) (out : Bool × ℚ × String × Visual)
    (h : evaluate_level_3 build = .ok out) : 0 ≤ out.2.1 ∧ out.2.1 ≤ 95 / 100 := by
  unfold evaluate_level_3 at h
  simp only [Except.ok.injEq] at h
  subst h
  constructor
  · split_ifs <;> norm_num
  · split_ifs <;> norm_num

theorem evaluate_mini_boss_1_bounds (build : ComponentBuild) (out : Bool × ℚ × String × Visual)
    (h : evaluate_mini_boss_1 build = .ok out) : 0 ≤ out.2.1 ∧ out.2.1 ≤ 95 / 100 := by
  unfold evaluate_mini_boss_1 at h
  simp only [Except.ok.injEq] at h
  subst h
  constructor
  · exact pyMin_nonneg _ _ (by norm_num) (by split_ifs <;> norm_num)
  · exact pyMin_le_left _ _

theorem evaluate_generic_bounds (build : ComponentBuild) (out : Bool × ℚ × String × Visual)
    (h : evaluate_generic build = .ok out) : 0 ≤ out.2.1 ∧ out.2.1 ≤ 95 / 100 := by
  unfold evaluate_generic at h
  simp only [Except.ok.injEq] at h
  subst h
  constructor
  · exact pyMin_nonneg _ _ (by norm_num) (by positivity)
  · calc pyMin (9 / 10) ((6 : ℚ) / 10 + (build.components.length : ℚ) * (1 / 10))
        ≤ 9 / 10 := pyMin_le_left _ _
      _ ≤ 95 / 100 := by norm_num

theorem evaluate_results_bounds (results : List (String × Tensor)) (level_id : ℤ)
    (build : ComponentBuild) (out : Bool × ℚ × String × Visual)
    (h : evaluate_results results level_id build = .ok out) :
    0 ≤ out.2.1 ∧ out.2.1 ≤ 95 / 100 := by
  unfold evaluate_results at h
  split at h
  · simp only [Except.ok.injEq] at h
    subst h
    norm_num
  · split at h
    · exact evaluate_level_2_bounds build out h
    · split at h
      · exact evaluate_level_3_bounds build out h
      · split at h
        · exact evaluate_mini_boss_1_bounds build out h
        · exact evaluate_generic_bounds build out h

theorem simulate_exec_bounds (reg : String → Option Impl) (build : ComponentBuild)
    (level_id : ℤ) (input : Tensor) :
    0 ≤ (simulate_exec reg build level_id input).score ∧
      (simulate_exec reg build level_id input).score ≤ 95 / 100 := by
  unfold simulate_exec
  split
  · unfold failedResult
    norm_num
  · split
    · unfold failedResult
      norm_num
    · rename_i out heval
      simpa using evaluate_results_bounds _ level_id build out heval

/-- C2: for every registry, build, level and optional input, the score of
the simulation outcome lies in `[0, 0.95]` — whether the build is invalid,
execution raises, or a level-specific scoring function runs. -/
theorem c2_score_bounds (reg : String → Option Impl) (build : ComponentBuild)
    (level_id : ℤ) (input_data : Option Tensor) :
    0 ≤ (simulate_build_with reg build level_id input_data).score ∧
      (simulate_build_with reg build level_id input_data).score ≤ 95 / 100 := by
  unfold simulate_build_with
  split
  · norm_num
  · exact simulate_exec_bounds reg build level_id _

/-! ## Claim C5 -/

theorem mastery_level_value_enum (l : MasteryLevel) :
    mastery_level_value (.enum l) = tierOrdinal l := by
  cases l <;> rfl

/-- The code's effective mastery score coincides with the spec's
`performanceScore` / `performanceScore / (attempts - 1)` formula. -/
theorem mastery_score_eq_spec (performance_score : ℚ) (attempts : ℤ) :
    (if 1 < attempts then performance_score * (1 / ((max 1 (attempts - 1) : ℤ) : ℚ))
     else performance_score) = specEffectiveScore performance_score attempts := by
  unfold specEffectiveScore
  rcases lt_or_le 1 attempts with h | h
  · rw [if_pos h, if_neg (by omega)]
    have hmx : (max 1 (attempts - 1)) = attempts - 1 := by omega
    rw [hmx]
    have hc : ((attempts - 1 : ℤ) : ℚ) = (attempts : ℚ) - 1 := by push_cast; ring
    rw [hc]
    ring
  · rw [if_neg (by omega), if_pos (by omega)]

/-- On an enum-valued current mastery, `newMasteryOf` computes the spec's
threshold tier — except that an expert current tier with an effective score
at least 0.95 falls through to proficient (an unobservable difference: that
tier is below expert and is discarded by the strict-upgrade store). -/
theorem newMasteryOf_enum (cur : MasteryLevel) (eff : ℚ) :
    newMasteryOf (.enum cur) eff =
      .ok (if cur = .expert ∧ (95 : ℚ) / 100 ≤ eff then .proficient
           else specMasteryTier eff) := by
  unfold newMasteryOf specMasteryTier
  by_cases h95 : (95 : ℚ) / 100 ≤ eff
  · by_cases hexp : cur = .expert
    · have h85 : (85 : ℚ) / 100 ≤ eff := by linarith
      simp [h95, hexp, h85]
    · simp [h95, hexp]
  · have hno : ¬(cur = .expert ∧ (95 : ℚ) / 100 ≤ eff) := by tauto
    rw [if_neg h95, if_neg hno]
    split_ifs <;> rfl

/-- The state produced by storing a tier for a concept. -/
def storeTier (p : PlayerProgress) (concept : String) (tier : MasteryLevel) : PlayerProgress :=
  { p with concept_mastery := dictInsert p.concept_mastery concept (.enum tier) }

/-- The update equation on an enum-valued current tier: the stored state
changes exactly when the spec tier of the spec effective score strictly
exceeds the current tier, and then to that tier. -/
theorem update_concept_mastery_enum (p : PlayerProgress) (concept : String)
    (performance_score : ℚ) (attempts : ℤ) (cur : MasteryLevel)
    (hcur : assess_concept_mastery p concept = .enum cur) :
    update_concept_mastery p concept performance_score attempts =
      .ok (if tierOrdinal cur <
          tierOrdinal (specMasteryTier (specEffectiveScore performance_score attempts))
        then storeTier p concept (specMasteryTier (specEffectiveScore performance_score attempts))
        else p) := by
  unfold update_concept_mastery storeTier
  rw [hcur, mastery_score_eq_spec, newMasteryOf_enum]
  by_cases hce : cur = .expert ∧
      (95 : ℚ) / 100 ≤ specEffectiveScore performance_score attempts
  · rw [if_pos hce]
    have hspec : specMasteryTier (specEffectiveScore performance_score attempts) = .expert := by
      unfold specMasteryTier
      rw [if_pos hce.2]
    rw [hspec, hce.1]
    simp [mastery_level_value, tierOrdinal]
  · rw [if_neg hce]
    simp only [mastery_level_value_enum, gt_iff_lt, apply_ite Except.ok]

/-- C5 (amended): for every update on an enum-valued current tier, the
effective score is `performanceScore` (attempts ≤ 1) or `performanceScore
/ (attempts - 1)`, is mapped through the fixed 0.95 / 0.85 / 0.7
thresholds, and the result is stored only when strictly higher than the
current tier; the concrete scenario (score 0.95, attempts 3, stored tier
expert) gives effective score 0.475, computed tier novice, and leaves the
stored tier expert — see the witness. -/
theorem c5_update_mastery_spec (p : PlayerProgress) (concept : String)
    (performance_score : ℚ) (attempts : ℤ) (cur : MasteryLevel)
    (hcur : assess_concept_mastery p concept = .enum cur) :
    ∃ q, update_concept_mastery p concept performance_score attempts = .ok q ∧
      assess_concept_mastery q concept = .enum
        (if tierOrdinal cur <
            tierOrdinal (specMasteryTier (specEffectiveScore performance_score attempts))
         then specMasteryTier (specEffectiveScore performance_score attempts)
         else cur) := by
  rw [update_concept_mastery_enum p concept performance_score attempts cur hcur]
  by_cases hlt : tierOrdinal cur <
      tierOrdinal (specMasteryTier (specEffectiveScore performance_score attempts))
  · refine ⟨_, rfl, ?_⟩
    rw [if_pos hlt, if_pos hlt]
    unfold assess_concept_mastery storeTier
    simp [dictGet_dictInsert]
  · refine ⟨_, rfl, ?_⟩
    rw [if_neg hlt, if_neg hlt, hcur]

/-- C5 counterexample: the claim's concrete scenario says effective score
0.475 maps to the tier "learning", but 0.475 is below the 0.7 learning
threshold — the code's computed tier there (current tier expert) is
novice, as is the spec-threshold tier. -/
theorem c5_scenario_counterexample :
    specEffectiveScore (95 / 100) 3 = 475 / 1000 ∧
    newMasteryOf (.enum .expert) (475 / 1000) = .ok .novice ∧
    specMasteryTier (475 / 1000) = .novice ∧
    MasteryLevel.novice ≠ .learning := by
  refine ⟨?_, ?_, ?_, by decide⟩
  · unfold specEffectiveScore
    norm_num
  · unfold newMasteryOf
    norm_num
  · unfold specMasteryTier
    norm_num

/-- Witness for C5: the scenario — a stored expert tier, a new attempt
with raw score 0.95 and attempts 3 gives effective score 0.475, computed
tier novice, and the stored tier stays expert. -/
theorem c5_update_mastery_spec_witness :
    specEffectiveScore (95 / 100) 3 = 475 / 1000 ∧
    specMasteryTier (475 / 1000) = .novice ∧
    assess_concept_mastery ⟨"p1", [], 1, [("neural_networks", .enum .expert)]⟩
      "neural_networks" = .enum .expert ∧
    ∃ q, update_concept_mastery ⟨"p1", [], 1, [("neural_networks", .enum .expert)]⟩
        "neural_networks" (95 / 100) 3 = .ok q ∧
      assess_concept_mastery q "neural_networks" = .enum .expert := by
  have h1 : specEffectiveScore (95 / 100) 3 = 475 / 1000 := by
    unfold specEffectiveScore
    norm_num
  have h2 : specMasteryTier (475 / 1000) = .novice := by
    unfold specMasteryTier
    norm_num
  have hcur : assess_concept_mastery ⟨"p1", [], 1, [("neural_networks", .enum .expert)]⟩
      "neural_networks" = .enum .expert := by decide
  refine ⟨h1, h2, hcur, ?_⟩
  have h := c5_update_mastery_spec ⟨"p1", [], 1, [("neural_networks", .enum .expert)]⟩
    "neural_networks" (95 / 100) 3 .expert hcur
  rw [h1, h2] at h
  simpa [tierOrdinal] using h

/-! ## Claim C1 -/

/-- C1: the mastery-monotonicity invariant is broken by the
level-completion flow. Starting from an empty progress record, a direct
`update_concept_mastery` with score 0.95 on one attempt stores the expert
tier for `deep_networks`; a subsequent `mark_level_complete` of level 2
(whose concepts include `deep_networks`) with score 0.5 then overwrites
that stored tier unconditionally with the raw string `"novice"` — the
stored tier for the same (progress, concept) pair drops from 3 (expert)
to 0 (novice). -/
theorem c1_level_completion_regression :
    ∃ p1 p2,
      update_concept_mastery ⟨"player", [], 1, []⟩ "deep_networks" (95 / 100) 1 = .ok p1 ∧
      storedTier (assess_concept_mastery p1 "deep_networks") = 3 ∧
      mark_level_complete 2 p1 (1 / 2) 60 1 1000 = .ok p2 ∧
      storedTier (assess_concept_mastery p2 "deep_networks") = 0 := by
  refine ⟨⟨"player", [], 1, [("deep_networks", .enum .expert)]⟩,
    ⟨"player", [(2, ⟨true, 1 / 2, 60, 1, 1000⟩)], 1,
      [("deep_networks", .str "novice"), ("layer_stacking", .str "novice"),
        ("tensor_operations", .str "novice")]⟩, ?_, by decide, ?_, by decide⟩
  · unfold update_concept_mastery assess_concept_mastery newMasteryOf
    norm_num [dictGet, dictInsert, mastery_level_value]
    simp +decide
  · unfold mark_level_complete get_level_concepts
    norm_num [dictInsert]
    simp +decide

/-! ## Claim C8 -/

theorem get_node_cons (n : ComponentNode) (ns : List ComponentNode) (k : String) :
    get_node (n :: ns) k = if n.id == k then some n else get_node ns k := by
  unfold get_node
  rw [List.find?_cons]
  cases hb : (n.id == k) <;> simp [hb]

/-- Looking the `j`-th synthetic node id up in the nodes built from offset
`s` finds exactly the node built for the `j`-th component. -/
theorem get_node_buildNodes (cs : List CompRef) (s j : ℕ) (hj : j < cs.length) :
    get_node (buildNodes s cs) (nodeKey (s + j)) =
      some ⟨nodeKey (s + j), compIdAt (s + j) (cs.get ⟨j, hj⟩), (cs.get ⟨j, hj⟩).parameters⟩ := by
  induction cs generalizing s j with
  | nil => simp at hj
  | cons c rest ih =>
    cases j with
    | zero =>
      rw [show buildNodes s (c :: rest) =
        ⟨nodeKey s, compIdAt s c, c.parameters⟩ :: buildNodes (s + 1) rest from rfl]
      rw [get_node_cons]
      simp
    | succ j2 =>
      rw [show buildNodes s (c :: rest) =
        ⟨nodeKey s, compIdAt s c, c.parameters⟩ :: buildNodes (s + 1) rest from rfl]
      rw [get_node_cons]
      have hne : nodeKey s ≠ nodeKey (s + (j2 + 1)) := by
        intro hk
        have := nodeKey_inj hk
        omega
      rw [if_neg (by simpa using hne)]
      have hj2 : j2 < rest.length := by
        simp only [List.length_cons] at hj
        omega
      have hmain := ih (s + 1) j2 hj2
      rw [show s + (j2 + 1) = s + 1 + j2 from by omega]
      exact hmain

theorem dictInsert_append_of_fresh {α : Type} (d : List (String × α)) (k : String) (v : α)
    (h : (d.any (fun p => p.1 == k)) = false) : dictInsert d k v = d ++ [(k, v)] := by
  unfold dictInsert
  rw [h]
  simp

/-- The executor loop over the node ids of `buildNodes s cs` chains the
components in order, appending one keyed entry per component to the
accumulated trace — exactly the spec-side chain description. -/
theorem executeLoop_spec (reg : String → Option Impl) (nodes : List ComponentNode)
    (cs : List CompRef) (s : ℕ) (current : Tensor) (acc : List (String × Tensor))
    (hlook : ∀ j (hj : j < cs.length), get_node nodes (nodeKey (s + j)) =
      some ⟨nodeKey (s + j), compIdAt (s + j) (cs.get ⟨j, hj⟩), (cs.get ⟨j, hj⟩).parameters⟩)
    (hacc : ∀ p ∈ acc, ∀ j, s ≤ j → p.1 ≠ nodeKey j) :
    executeLoop reg nodes ((buildNodes s cs).map (fun n => n.id)) current acc =
      (match specChainTrace reg s cs current with
       | .error e => .error e
       | .ok t => .ok (acc ++ t)) := by
  induction cs generalizing s current acc with
  | nil =>
    unfold buildNodes executeLoop specChainTrace
    simp
  | cons c rest ih =>
    have h0 : get_node nodes (nodeKey s) =
        some ⟨nodeKey s, compIdAt s c, c.parameters⟩ := hlook 0 (by simp)
    rw [show buildNodes s (c :: rest) =
      ⟨nodeKey s, compIdAt s c, c.parameters⟩ :: buildNodes (s + 1) rest from rfl]
    rw [List.map_cons]
    rw [show (⟨nodeKey s, compIdAt s c, c.parameters⟩ : ComponentNode).id = nodeKey s from rfl]
    unfold executeLoop
    simp only [h0]
    rcases hreg : reg (compIdAt s c) with _ | impl
    · simp only [specChainTrace, hreg]
    · rcases himpl : impl c.parameters current with e | next
      · simp only [specChainTrace, hreg, himpl]
      · simp only [specChainTrace, hreg, himpl]
        have hany : (acc.any (fun p => p.1 == nodeKey s)) = false := by
          rw [List.any_eq_false]
          intro p hp
          simpa using hacc p hp s (le_refl s)
        rw [dictInsert_append_of_fresh acc (nodeKey s) next hany]
        have hlook2 : ∀ j (hj : j < rest.length), get_node nodes (nodeKey (s + 1 + j)) =
            some ⟨nodeKey (s + 1 + j), compIdAt (s + 1 + j) (rest.get ⟨j, hj⟩),
              (rest.get ⟨j, hj⟩).parameters⟩ := by
          intro j hj
          have h2 := hlook (j + 1) (by simpa using Nat.succ_lt_succ hj)
          rw [show s + (j + 1) = s + 1 + j from by omega] at h2
          exact h2
        have hacc2 : ∀ p ∈ acc ++ [(nodeKey s, next)], ∀ j, s + 1 ≤ j → p.1 ≠ nodeKey j := by
          intro p hp j hj
          rcases List.mem_append.mp hp with hin | hin
          · exact hacc p hin j (by omega)
          · have hpeq : p = (nodeKey s, next) := by simpa using hin
            subst hpeq
            intro hk
            have := nodeKey_inj hk
            omega
        rw [ih (s + 1) next (acc ++ [(nodeKey s, next)]) hlook2 hacc2]
        rcases specChainTrace reg (s + 1) rest next with e2 | t
        · rfl
        · simp

/-- `execute` on the graph `simulate_build` constructs equals the
spec-side chain trace prefixed with the `input` entry. -/
theorem execute_build_graph (reg : String → Option Impl) (comps : List CompRef) (x : Tensor) :
    execute reg (build_graph comps) x =
      (match specChainTrace reg 0 comps x with
       | .error e => .error e
       | .ok t => .ok (("input", x) :: t)) := by
  have hlook : ∀ j (hj : j < comps.length), get_node (buildNodes 0 comps) (nodeKey (0 + j)) =
      some ⟨nodeKey (0 + j), compIdAt (0 + j) (comps.get ⟨j, hj⟩),
        (comps.get ⟨j, hj⟩).parameters⟩ := by
    intro j hj
    exact get_node_buildNodes comps 0 j hj
  have hacc : ∀ p ∈ [(("input" : String), x)], ∀ j, 0 ≤ j → p.1 ≠ nodeKey j := by
    intro p hp j hj
    have hpeq : p = ("input", x) := by simpa using hp
    subst hpeq
    exact fun hk => nodeKey_ne_input j hk.symm
  have h := executeLoop_spec reg (buildNodes 0 comps) comps 0 x [("input", x)] hlook hacc
  rw [show execute reg (build_graph comps) x =
    executeLoop reg (buildNodes 0 comps) ((buildNodes 0 comps).map (fun n => n.id)) x
      [("input", x)] from rfl]
  rw [h]
  rcases specChainTrace reg 0 comps x with e | t
  · rfl
  · simp

/-- C8: for every registry, component list and input whose ids all resolve
and whose transformations all succeed (the spec-side chain produces `.ok
entries`, one entry per component keyed `node_0`, `node_1`, …, each the
output of feeding the previous entry's output through that component in
submission order), executing the built graph returns exactly the `input`
entry holding the original array followed by those entries. -/
theorem c8_execute_trace (reg : String → Option Impl) (comps : List CompRef)
    (x : Tensor) (entries : List (String × Tensor))
    (h : specChainTrace reg 0 comps x = .ok entries) :
    execute reg (build_graph comps) x = .ok (("input", x) :: entries) := by
  rw [execute_build_graph, h]

/-- Witness for C8: a one-component build under a registry whose single
implementation is the identity transformation. -/
theorem c8_execute_trace_witness :
    specChainTrace (fun _ => some (fun _ v => .ok v)) 0
      [⟨some "neural_layer", none, none, []⟩] [] = .ok [("node_0", [])] ∧
    execute (fun _ => some (fun _ v => .ok v))
      (build_graph [⟨some "neural_layer", none, none, []⟩]) [] =
      .ok [("input", []), ("node_0", [])] := by
  have h : specChainTrace (fun _ => some (fun _ v => .ok v)) 0
      [⟨some "neural_layer", none, none, []⟩] [] = .ok [("node_0", [])] := by
    simp only [specChainTrace]
    rw [show nodeKey 0 = "node_0" from by decide]
  exact ⟨h, c8_execute_trace _ _ _ _ h⟩

/-! ## Claim C7 -/

/-- The spec scenario build: `[neural_layer, activation_relu, dense_layer]`. -/
def l2Build : ComponentBuild :=
  ⟨[⟨some "neural_layer", none, none, []⟩,
    ⟨some "activation_relu", none, none, []⟩,
    ⟨some "dense_layer", none, none, []⟩]⟩

/-- C7: on the build `[neural_layer, activation_relu, dense_layer]` at
level 2, the validator reports valid with no issues and the component-class
set is exactly neural/activation/dense — but the level-2 scorer crashes
constructing its visualization payload (`dict(component_types)` over a set
of class-name strings raises `ValueError`), so `simulate_build` catches the
exception and returns success false with score 0 instead of the computed
success verdict. -/
theorem c7_level2_scenario_bug (lib : NumericLib) :
    (validate_build l2Build 2).is_valid = true ∧
    (validate_build l2Build 2).issues = [] ∧
    component_types_l2 l2Build.components = ["neural", "activation", "dense"] ∧
    evaluate_level_2 l2Build =
      .error "dictionary update sequence element #0 has length 6; 2 is required" ∧
    (simulate_build lib l2Build 2 none).success = false ∧
    (simulate_build lib l2Build 2 none).score = 0 := by
  refine ⟨by decide, by decide, by decide, by rfl, ?_, ?_⟩ <;> rfl
